import Mathlib

/-!
Verification of the Market-Data Normalization & Classification Pipeline
(`src/main.py`) against its natural-language specification.

The embedding is shallow: Python floats are modelled as rationals (ℚ),
Python ints as ℤ, dictionaries/Series rows as records with `Option` fields
(a missing key raises, modelled by `Except`), and the upstream TvDatafeed
provider as an explicit environment function passed to the orchestrator.
The DataFrame index of each raw bar is modelled as a datetime value whose
`isoformat()` rendering is stored directly as a string.
-/

namespace Crawlee

/-- The set of intervals of the tvdatafeed provider used by `INTERVAL_MAP`. -/
inductive Interval where
  | in_1_minute
  | in_5_minute
  | in_15_minute
  | in_30_minute
  | in_1_hour
  | in_4_hour
  | in_daily
deriving DecidableEq, Repr

/-- `ScrapeRequest` (src/main.py lines 22-27): the POST body of `/scrape`.
Defaults: timeframe "2m", limit 100, historical_days 7. -/
structure ScrapeRequest where
  url : String
  symbol : String
  timeframe : String := "2m"
  limit : Int := 100
  historical_days : Int := 7
deriving Repr, DecidableEq

/-- `CandleData` (src/main.py lines 29-36): one canonical candle of the
response. Prices are Python floats, modelled as ℚ. -/
structure CandleData where
  timestamp : String
  «open» : ℚ
  high : ℚ
  low : ℚ
  close : ℚ
  volume : Int
  candle_type : String
deriving Repr, DecidableEq

/-- `ScrapeResponse` (src/main.py lines 38-42): the response envelope. -/
structure ScrapeResponse where
  success : Bool
  symbol : String
  candles : List CandleData
  message : Option String := none
deriving Repr, DecidableEq

/-- `INTERVAL_MAP` (src/main.py lines 45-54): supported timeframe strings
and their provider intervals; "2m" collapses to the 1-minute interval. -/
def INTERVAL_MAP : List (String × Interval) :=
  [("1m", Interval.in_1_minute),
   ("2m", Interval.in_1_minute),
   ("5m", Interval.in_5_minute),
   ("15m", Interval.in_15_minute),
   ("30m", Interval.in_30_minute),
   ("1h", Interval.in_1_hour),
   ("4h", Interval.in_4_hour),
   ("1d", Interval.in_daily)]

/-- `INTERVAL_MAP.get(request.timeframe, Interval.in_1_minute)`
(src/main.py line 106): dictionary lookup with default. -/
def resolve_interval (timeframe : String) : Interval :=
  (INTERVAL_MAP.lookup timeframe).getD Interval.in_1_minute

/-- `classify_candle` (src/main.py lines 56-74): classify candle type based
on body size and direction, with thresholds 0.7 / 0.4 / 0.2. -/
def classify_candle (open_price high low close : ℚ) : String :=
  let body_size := |close - open_price|
  let total_range := high - low
  if total_range = 0 then
    "exhaustion"
  else
    let body_ratio := body_size / total_range
    let is_bullish := close > open_price
    if body_ratio > 7/10 then
      if is_bullish then "bull-strong" else "bear-strong"
    else if body_ratio > 4/10 then
      if is_bullish then "bull-weak" else "bear-weak"
    else if body_ratio < 2/10 then
      "exhaustion"
    else
      "reversal"

/-- Python `str.upper()` on the characters of a string (src/main.py
line 92: `request.symbol.upper()`). -/
def str_upper (s : String) : String :=
  String.mk (s.data.map Char.toUpper)

/-- Python `str.startswith(p)`: the characters of `p` are a prefix of the
characters of `s` (src/main.py lines 98 and 100). -/
def startswith (s p : String) : Bool :=
  p.data.isPrefixOf s.data

/-- Symbol resolution (src/main.py lines 92-103): upper-case the request
symbol; symbols starting with "WIN" map to the continuous mini-index
contract, "WDO" to the continuous mini-dollar contract, anything else is
passed through upper-cased. -/
def resolve_symbol (s : String) : String :=
  let symbol := str_upper s
  if startswith symbol "WIN" then "WIN1!"
  else if startswith symbol "WDO" then "WDO1!"
  else symbol

/-- Bar-count budget (src/main.py lines 110-111):
`n_bars = min(request.historical_days * bars_per_day, 5000)` with
`bars_per_day = 270`. -/
def n_bars (historical_days : Int) : Int :=
  min (historical_days * 270) 5000

/-- One row of the DataFrame returned by `tv.get_hist`, as consumed by the
normalization loop (src/main.py lines 134-151). A field absent from the
row is `none`; accessing it with `row[...]` raises a KeyError. The index
`idx` is modelled as a datetime whose isoformat is the stored string. -/
structure RawBar where
  idx : String
  «open» : Option ℚ
  high : Option ℚ
  low : Option ℚ
  close : Option ℚ
  volume : Option Int
deriving Repr, DecidableEq

/-- `row[name]`: the value when present, otherwise a KeyError exception. -/
def rowGet (field : Option ℚ) (name : String) : Except String ℚ :=
  match field with
  | some v => Except.ok v
  | none => Except.error ("KeyError: " ++ name)

/-- One iteration of the normalization loop (src/main.py lines 134-151):
coerce open/high/low/close in evaluation order (raising KeyError on the
first missing key), default volume to 0 when absent, and classify. -/
def normalize_row (b : RawBar) : Except String CandleData :=
  match rowGet b.«open» "open" with
  | Except.error e => Except.error e
  | Except.ok o =>
    match rowGet b.high "high" with
    | Except.error e => Except.error e
    | Except.ok h =>
      match rowGet b.low "low" with
      | Except.error e => Except.error e
      | Except.ok l =>
        match rowGet b.close "close" with
        | Except.error e => Except.error e
        | Except.ok c =>
          Except.ok
            { timestamp := b.idx
              «open» := o
              high := h
              low := l
              close := c
              volume := b.volume.getD 0
              candle_type := classify_candle o h l c }

/-- The provider environment: `tv.get_hist(symbol, exchange, interval,
n_bars, fut_contract)` (src/main.py lines 116-122). `.error` models a
raised exception (also covering a failing `TvDatafeed()` construction);
`.ok none` models `df is None`; `.ok (some rows)` a DataFrame with the
given rows. -/
def TvEnv : Type :=
  String → String → Interval → Int → Int → Except String (Option (List RawBar))

/-- The body of the `try:` block of the `/scrape` endpoint
(src/main.py lines 86-160): resolve symbol, interval and bar budget,
fetch, handle a missing/empty DataFrame, normalize and classify each row,
and build the success envelope. An `Except.error` is an uncaught Python
exception reaching the `except` clause. -/
def scrape_core (request : ScrapeRequest) (tv : TvEnv) :
    Except String ScrapeResponse :=
  let tv_symbol := resolve_symbol request.symbol
  let exchange := "BMFBOVESPA"
  let interval := resolve_interval request.timeframe
  let n := n_bars request.historical_days
  match tv tv_symbol exchange interval n 1 with
  | Except.error e => Except.error e
  | Except.ok df =>
    match df with
    | none =>
        Except.ok
          { success := false
            symbol := request.symbol
            candles := []
            message := some "No data returned from TradingView" }
    | some rows =>
        if rows.isEmpty then
          Except.ok
            { success := false
              symbol := request.symbol
              candles := []
              message := some "No data returned from TradingView" }
        else
          match rows.mapM normalize_row with
          | Except.error e => Except.error e
          | Except.ok candles =>
            Except.ok
              { success := true
                symbol := request.symbol
                candles := candles
                message := some ("Extracted " ++ toString candles.length
                  ++ " candles from TradingView") }

/-- The `/scrape` endpoint (src/main.py lines 84-172): run the try-block
body; any exception is caught and converted into a structured failure
response (src/main.py lines 162-172). -/
def scrape (request : ScrapeRequest) (tv : TvEnv) : ScrapeResponse :=
  match scrape_core request tv with
  | Except.ok r => r
  | Except.error e =>
      { success := false
        symbol := request.symbol
        candles := []
        message := some ("Error: " ++ e) }

/-! ## Concrete probe data -/

/-- A well-formed raw bar (all fields present). -/
def wellFormedBar : RawBar :=
  { idx := "2025-01-02T10:00:00"
    «open» := some 100
    high := some 110
    low := some 90
    close := some 108
    volume := some 1500 }

/-- A request with the declared defaults: timeframe "2m", limit 100,
historical_days 7. -/
def probeRequest : ScrapeRequest :=
  { url := "https://www.tradingview.com/chart", symbol := "WINZ25" }

/-- A provider environment returning 101 well-formed bars: one more than
the request's declared `limit` of 100. -/
def manyBarsEnv : TvEnv :=
  fun _ _ _ _ _ => Except.ok (some (List.replicate 101 wellFormedBar))

/-- A raw bar whose `close` field is missing from the row. -/
def missingCloseBar : RawBar :=
  { idx := "2025-01-02T10:04:00"
    «open» := some 100
    high := some 110
    low := some 90
    close := none
    volume := some 1500 }

/-- Five raw bars, the third of which is missing its `close` field. -/
def missingCloseRows : List RawBar :=
  [wellFormedBar, wellFormedBar, missingCloseBar, wellFormedBar, wellFormedBar]

/-- A provider environment returning the five bars of
`missingCloseRows`. -/
def missingCloseEnv : TvEnv :=
  fun _ _ _ _ _ => Except.ok (some missingCloseRows)

/-! ## Theorems -/

/-- C3: for every OHLC input with `high - low ≠ 0`, with
`ratio = |close - open| / (high - low)` and the deployment policy
(strong 0.7, weak 0.4, low 0.2), the classifier returns the strong label
when `ratio > 0.7`, the weak label when `0.4 < ratio ≤ 0.7`, "exhaustion"
when `ratio < 0.2`, and "reversal" when `0.2 ≤ ratio ≤ 0.4`; the bull/bear
side is decided solely by `close > open`. In particular
`classify_candle 100 110 90 108` has ratio 0.4 and yields "reversal". -/
theorem classify_candle_policy (o h l c : ℚ) (hne : h - l ≠ 0) :
    ((|c - o| / (h - l) > 7/10 →
        classify_candle o h l c = if c > o then "bull-strong" else "bear-strong")
  ∧ (|c - o| / (h - l) ≤ 7/10 → |c - o| / (h - l) > 4/10 →
        classify_candle o h l c = if c > o then "bull-weak" else "bear-weak")
  ∧ (|c - o| / (h - l) < 2/10 → classify_candle o h l c = "exhaustion")
  ∧ (2/10 ≤ |c - o| / (h - l) → |c - o| / (h - l) ≤ 4/10 →
        classify_candle o h l c = "reversal"))
  ∧ |(108:ℚ) - 100| / (110 - 90) = 4/10
  ∧ classify_candle 100 110 90 108 = "reversal" := by
  refine ⟨⟨?_, ?_, ?_, ?_⟩, by norm_num, by norm_num [classify_candle]⟩ <;>
    (intros
     simp only [classify_candle]
     split_ifs <;>
       first
         | rfl
         | (exact absurd (by assumption) hne)
         | linarith)

/-- C3 witness: concrete instances of `classify_candle_policy`. -/
theorem classify_candle_policy_witness :
    ((1:ℚ) - 0 ≠ 0)
  ∧ classify_candle 0 1 0 1 = "bull-strong"
  ∧ classify_candle 100 110 90 108 = "reversal" := by
  refine ⟨by norm_num, ?_,
    (classify_candle_policy 100 110 90 108 (by norm_num)).2.2⟩
  have hb := (classify_candle_policy 0 1 0 1 (by norm_num)).1.1 (by norm_num)
  rw [if_pos (by norm_num : (1:ℚ) > 0)] at hb
  exact hb

/-- C4: for every OHLC input with `high = low` (total range zero), the
classifier returns the degenerate label "exhaustion" regardless of the
open and close values; the branch returns before the body/range division
is reached. -/
theorem classify_candle_degenerate (o h c : ℚ) :
    classify_candle o h h c = "exhaustion" := by
  simp [classify_candle]

/-- C7: symbol resolution is total on non-empty symbols: the provider
symbol is non-empty, symbols whose upper-cased form starts with "WIN"
resolve to "WIN1!", those starting with "WDO" resolve to "WDO1!", and
every other symbol is passed through upper-cased; no input raises. -/
theorem resolve_symbol_total (s : String) (hs : s ≠ "") :
    resolve_symbol s ≠ ""
  ∧ (startswith (str_upper s) "WIN" = true → resolve_symbol s = "WIN1!")
  ∧ (startswith (str_upper s) "WIN" = false →
      startswith (str_upper s) "WDO" = true → resolve_symbol s = "WDO1!")
  ∧ (startswith (str_upper s) "WIN" = false →
      startswith (str_upper s) "WDO" = false →
      resolve_symbol s = str_upper s) := by
  have hup : str_upper s ≠ "" := by
    intro hcontra
    apply hs
    have hdata : s.data.map Char.toUpper = [] := congrArg String.data hcontra
    have hnil : s.data = [] := List.map_eq_nil_iff.mp hdata
    cases s
    simp_all
  refine ⟨?_, ?_, ?_, ?_⟩
  · simp only [resolve_symbol]
    split_ifs <;> simp [hup]
  · intro h1; simp [resolve_symbol, h1]
  · intro h1 h2; simp [resolve_symbol, h1, h2]
  · intro h1 h2; simp [resolve_symbol, h1, h2]

/-- C7 witness: `resolve_symbol_total` applied to the concrete symbol
"winz25". -/
theorem resolve_symbol_total_witness :
    ("winz25" : String) ≠ ""
  ∧ resolve_symbol "winz25" ≠ ""
  ∧ resolve_symbol "winz25" = "WIN1!" :=
  ⟨by decide, (resolve_symbol_total "winz25" (by decide)).1,
    (resolve_symbol_total "winz25" (by decide)).2.1 (by decide)⟩

/-- C8: timeframe resolution never fails: every timeframe string present
in `INTERVAL_MAP` maps to its listed provider interval, every absent
timeframe falls back to the 1-minute interval, and in particular "2m"
resolves to the 1-minute interval. -/
theorem resolve_interval_table :
    (∀ p ∈ INTERVAL_MAP, resolve_interval p.1 = p.2)
  ∧ (∀ tf : String, INTERVAL_MAP.lookup tf = none →
      resolve_interval tf = Interval.in_1_minute)
  ∧ resolve_interval "2m" = Interval.in_1_minute := by
  refine ⟨by decide, ?_, by decide⟩
  intro tf htf
  simp [resolve_interval, htf]

/-- C8 witness: `resolve_interval_table` applied to a supported timeframe
("5m") and to one absent from the table ("7m"). -/
theorem resolve_interval_table_witness :
    resolve_interval "5m" = Interval.in_5_minute
  ∧ resolve_interval "7m" = Interval.in_1_minute :=
  ⟨resolve_interval_table.1 ("5m", Interval.in_5_minute) (by decide),
    resolve_interval_table.2.1 "7m" (by decide)⟩

/-- C9: the bar-count budget equals
`min(historical_days * 270, 5000)`, so for every non-negative
`historical_days` the number of bars requested never exceeds 5000. -/
theorem n_bars_clamped (d : Int) (hd : 0 ≤ d) :
    n_bars d = min (d * 270) 5000 ∧ n_bars d ≤ 5000 :=
  ⟨rfl, min_le_right _ _⟩

/-- C9 witness: `n_bars_clamped` at the default `historical_days = 7`. -/
theorem n_bars_clamped_witness :
    ((0:Int) ≤ 7) ∧ n_bars 7 = min (7 * 270) 5000 ∧ n_bars 7 ≤ 5000 :=
  ⟨by decide, n_bars_clamped 7 (by decide)⟩

/-- Helper: a row normalized successfully has its open and close fields
present. -/
lemma normalize_row_ok_fields (b : RawBar) (cd : CandleData)
    (h : normalize_row b = Except.ok cd) :
    b.«open» ≠ none ∧ b.close ≠ none := by
  rcases hbo : b.«open» with _ | o
  · simp [normalize_row, rowGet, hbo] at h
  rcases hbh : b.high with _ | vh
  · simp [normalize_row, rowGet, hbo, hbh] at h
  rcases hbl : b.low with _ | vl
  · simp [normalize_row, rowGet, hbo, hbh, hbl] at h
  rcases hbc : b.close with _ | vc
  · simp [normalize_row, rowGet, hbo, hbh, hbl, hbc] at h
  exact ⟨by simp [hbo], by simp [hbc]⟩

/-- Helper: if the normalization loop completes, every row normalized
successfully. -/
lemma mapM_ok_forall {rows : List RawBar} {cs : List CandleData}
    (h : rows.mapM normalize_row = Except.ok cs) :
    ∀ b ∈ rows, ∃ cd, normalize_row b = Except.ok cd := by
  induction rows generalizing cs with
  | nil => intro b hb; cases hb
  | cons a as ih =>
    rw [List.mapM_cons] at h
    rcases ha : normalize_row a with e | cd <;>
      simp only [ha, Bind.bind, Except.bind] at h
    · cases h
    · rcases has : as.mapM normalize_row with e2 | cs2 <;>
        simp only [has] at h
      · cases h
      · intro b hb
        rcases List.mem_cons.mp hb with rfl | hb2
        · exact ⟨cd, ha⟩
        · exact ih has b hb2

/-- Helper: a row with a missing open or close field makes the whole
normalization loop raise. -/
lemma mapM_error_of_missing (rows : List RawBar) (b : RawBar)
    (hb : b ∈ rows) (hmiss : b.«open» = none ∨ b.close = none) :
    ∃ e, rows.mapM normalize_row = Except.error e := by
  rcases hres : rows.mapM normalize_row with e | cs
  · exact ⟨e, rfl⟩
  · exfalso
    obtain ⟨cd, hcd⟩ := mapM_ok_forall hres b hb
    obtain ⟨ho, hc⟩ := normalize_row_ok_fields b cd hcd
    rcases hmiss with h | h
    · exact ho h
    · exact hc h

/-- C2 counterexample: five raw bars with the third missing `close` do
NOT normalize to four candles with a successful request; the whole
request fails with an empty candle list. -/
theorem scrape_missing_close_counterexample :
    scrape probeRequest missingCloseEnv
      = { success := false, symbol := "WINZ25", candles := [],
          message := some "Error: KeyError: close" }
  ∧ (scrape probeRequest missingCloseEnv).candles.length ≠ 4
  ∧ (scrape probeRequest missingCloseEnv).success ≠ true := by
  refine ⟨by decide, by decide, by decide⟩

/-- C2 amended: a raw bar whose open or close is missing is not skipped;
the KeyError it raises aborts the whole normalization loop and is caught
at the orchestrator boundary, so the request returns success=false with
an empty candle list. -/
theorem scrape_missing_field_fails (request : ScrapeRequest) (tv : TvEnv)
    (rows : List RawBar) (b : RawBar)
    (hfetch : tv (resolve_symbol request.symbol) "BMFBOVESPA"
        (resolve_interval request.timeframe) (n_bars request.historical_days) 1
        = Except.ok (some rows))
    (hb : b ∈ rows)
    (hmiss : b.«open» = none ∨ b.close = none) :
    (scrape request tv).success = false ∧ (scrape request tv).candles = [] := by
  obtain ⟨e, he⟩ := mapM_error_of_missing rows b hb hmiss
  have he' : List.mapM.loop normalize_row rows [] = Except.error e := he
  have hne : rows.isEmpty = false := by
    cases rows
    · cases hb
    · rfl
  constructor <;> simp [scrape, scrape_core, hfetch, hne, he']

/-- C2 witness: `scrape_missing_field_fails` on the concrete five-bar
sequence with one missing `close`. -/
theorem scrape_missing_field_fails_witness :
    (scrape probeRequest missingCloseEnv).success = false
  ∧ (scrape probeRequest missingCloseEnv).candles = [] :=
  scrape_missing_field_fails probeRequest missingCloseEnv missingCloseRows
    missingCloseBar rfl (by simp [missingCloseRows]) (Or.inr rfl)

/-- C1: the `/scrape` endpoint never applies the request's `limit`: with
the declared default `limit = 100` and a fetch returning 101 well-formed
bars, the response is successful and contains all 101 candles,
exceeding `limit`. -/
theorem scrape_exceeds_limit :
    probeRequest.limit = 100
  ∧ (scrape probeRequest manyBarsEnv).success = true
  ∧ (scrape probeRequest manyBarsEnv).candles.length = 101
  ∧ probeRequest.limit <
      ((scrape probeRequest manyBarsEnv).candles.length : Int) := by
  refine ⟨rfl, rfl, by decide, by decide⟩

/-- C5: every exception in the try-block body (resolution, fetch,
normalization, classification) is caught at the orchestrator boundary:
the endpoint returns a structured response with success=false, an empty
candle list and a non-empty message, and never propagates the fault. -/
theorem scrape_catches_exceptions (request : ScrapeRequest) (tv : TvEnv)
    (e : String) (herr : scrape_core request tv = Except.error e) :
    scrape request tv
      = { success := false, symbol := request.symbol, candles := [],
          message := some ("Error: " ++ e) }
  ∧ ("Error: " ++ e) ≠ "" := by
  constructor
  · simp [scrape, herr]
  · intro hcontra
    have hdata := congrArg String.data hcontra
    simp [String.data_append] at hdata

/-- C5 witness: `scrape_catches_exceptions` on a provider environment
that raises. -/
theorem scrape_catches_exceptions_witness :
    scrape probeRequest (fun _ _ _ _ _ => Except.error "ConnectionError")
      = { success := false, symbol := "WINZ25", candles := [],
          message := some "Error: ConnectionError" } :=
  (scrape_catches_exceptions probeRequest
    (fun _ _ _ _ _ => Except.error "ConnectionError") "ConnectionError" rfl).1

/-- C6: a fetch returning no DataFrame or an empty one (no exception)
yields success=false, an empty candle list and a non-empty explanatory
message, without raising. -/
theorem scrape_empty_result (request : ScrapeRequest) (tv : TvEnv)
    (hempty :
      tv (resolve_symbol request.symbol) "BMFBOVESPA"
        (resolve_interval request.timeframe) (n_bars request.historical_days) 1
        = Except.ok none ∨
      tv (resolve_symbol request.symbol) "BMFBOVESPA"
        (resolve_interval request.timeframe) (n_bars request.historical_days) 1
        = Except.ok (some [])) :
    scrape request tv
      = { success := false, symbol := request.symbol, candles := [],
          message := some "No data returned from TradingView" }
  ∧ ("No data returned from TradingView" : String) ≠ "" := by
  refine ⟨?_, by decide⟩
  rcases hempty with h | h <;> simp [scrape, scrape_core, h]

/-- C6 witness: `scrape_empty_result` on a provider environment returning
no DataFrame. -/
theorem scrape_empty_result_witness :
    scrape probeRequest (fun _ _ _ _ _ => Except.ok none)
      = { success := false, symbol := "WINZ25", candles := [],
          message := some "No data returned from TradingView" } :=
  (scrape_empty_result probeRequest (fun _ _ _ _ _ => Except.ok none)
    (Or.inl rfl)).1

/-- C10: in all three terminal outcomes (success with data, empty result,
caught exception) the response's `symbol` field is the request's original
`symbol` string verbatim, never the resolved or upper-cased form. -/
theorem scrape_symbol_echoes_request (request : ScrapeRequest) (tv : TvEnv) :
    (scrape request tv).symbol = request.symbol := by
  rcases htv : tv (resolve_symbol request.symbol) "BMFBOVESPA"
      (resolve_interval request.timeframe) (n_bars request.historical_days) 1
    with e | df
  · simp [scrape, scrape_core, htv]
  · rcases df with _ | rows
    · simp [scrape, scrape_core, htv]
    · rcases hmap : List.mapM.loop normalize_row rows [] with e | cs <;>
        by_cases hrows : rows.isEmpty <;>
        simp [scrape, scrape_core, htv, hmap, hrows]

end Crawlee
